import Mathlib

/-!
Verification development for holaplex/solana-arborist.

The Rust sources under src/ are shallowly embedded below: pure functions
become Lean functions, machine integers become `Nat` with explicit
`% 2^64` where the u64/usize arithmetic can wrap (Rust release-profile
semantics), fallible code returns `Except`, and every external effect
(RPC node, filesystem, interactive prompts, external crates) is an
explicit environment argument.
-/

namespace Arborist

/-! ### Capacity lookup (src/bubblegum.rs `tree_size` and the inline copy in
src/main.rs `create_tree`)

The external constant `size_of::<ConcurrentMerkleTree<d, b>>()` is abstracted
as an argument `sizeOf : Nat → Nat → Nat`, and the external constant
`CONCURRENT_MERKLE_TREE_HEADER_SIZE_V1` as `header : Nat`; both are `usize`
values of the spl-account-compression crate, identical in the two copies. -/

/-- The 26 literal (depth, buffer_size) pairs enumerated by both copies of
`merkle_tree_get_size` (src/main.rs lines 197-222 and src/bubblegum.rs lines
40-65), in source order. -/
def validPairs : List (Nat × Nat) :=
  [(3, 8), (5, 8), (14, 64), (14, 256), (14, 1024), (14, 2048),
   (15, 64), (16, 64), (17, 64), (18, 64), (19, 64), (20, 64),
   (20, 256), (20, 1024), (20, 2048), (24, 64), (24, 256), (24, 512),
   (24, 1024), (24, 2048), (26, 512), (26, 1024), (26, 2048),
   (30, 512), (30, 1024), (30, 2048)]

/-- src/main.rs lines 195-230: `merkle_tree_get_size` inlined in `create_tree`,
a match over literal (depth, buffer_size) pairs, written as the equivalent
chain of equality tests in source order. -/
def merkle_tree_get_size_main (sizeOf : Nat → Nat → Nat)
    (depth buffer_size : Nat) : Except String Nat :=
  if depth = 3 ∧ buffer_size = 8 then .ok (sizeOf 3 8)
  else if depth = 5 ∧ buffer_size = 8 then .ok (sizeOf 5 8)
  else if depth = 14 ∧ buffer_size = 64 then .ok (sizeOf 14 64)
  else if depth = 14 ∧ buffer_size = 256 then .ok (sizeOf 14 256)
  else if depth = 14 ∧ buffer_size = 1024 then .ok (sizeOf 14 1024)
  else if depth = 14 ∧ buffer_size = 2048 then .ok (sizeOf 14 2048)
  else if depth = 15 ∧ buffer_size = 64 then .ok (sizeOf 15 64)
  else if depth = 16 ∧ buffer_size = 64 then .ok (sizeOf 16 64)
  else if depth = 17 ∧ buffer_size = 64 then .ok (sizeOf 17 64)
  else if depth = 18 ∧ buffer_size = 64 then .ok (sizeOf 18 64)
  else if depth = 19 ∧ buffer_size = 64 then .ok (sizeOf 19 64)
  else if depth = 20 ∧ buffer_size = 64 then .ok (sizeOf 20 64)
  else if depth = 20 ∧ buffer_size = 256 then .ok (sizeOf 20 256)
  else if depth = 20 ∧ buffer_size = 1024 then .ok (sizeOf 20 1024)
  else if depth = 20 ∧ buffer_size = 2048 then .ok (sizeOf 20 2048)
  else if depth = 24 ∧ buffer_size = 64 then .ok (sizeOf 24 64)
  else if depth = 24 ∧ buffer_size = 256 then .ok (sizeOf 24 256)
  else if depth = 24 ∧ buffer_size = 512 then .ok (sizeOf 24 512)
  else if depth = 24 ∧ buffer_size = 1024 then .ok (sizeOf 24 1024)
  else if depth = 24 ∧ buffer_size = 2048 then .ok (sizeOf 24 2048)
  else if depth = 26 ∧ buffer_size = 512 then .ok (sizeOf 26 512)
  else if depth = 26 ∧ buffer_size = 1024 then .ok (sizeOf 26 1024)
  else if depth = 26 ∧ buffer_size = 2048 then .ok (sizeOf 26 2048)
  else if depth = 30 ∧ buffer_size = 512 then .ok (sizeOf 30 512)
  else if depth = 30 ∧ buffer_size = 1024 then .ok (sizeOf 30 1024)
  else if depth = 30 ∧ buffer_size = 2048 then .ok (sizeOf 30 2048)
  else .error ("Invalid combination of max depth " ++ toString depth ++
    " and max buffer size " ++ toString buffer_size)

/-- Insertion into an association list sorted by ascending key: the model of
`BTreeMap::insert` used for both levels of the `SIZES` map of
src/bubblegum.rs. -/
def insertSorted (k : Nat) (v : α) : List (Nat × α) → List (Nat × α)
  | [] => [(k, v)]
  | (k0, v0) :: rest =>
    if k < k0 then (k, v) :: (k0, v0) :: rest
    else if k = k0 then (k, v) :: rest
    else (k0, v0) :: insertSorted k v rest

/-- `BTreeMap::get`. -/
def lookupSorted (k : Nat) : List (Nat × α) → Option α
  | [] => none
  | (k0, v0) :: rest => if k = k0 then some v0 else lookupSorted k rest

/-- One step of the `SIZES` construction loop (src/bubblegum.rs line 67):
`map.entry(depth).or_default().insert(buf, size)`. -/
def insertEntry (sizeOf : Nat → Nat → Nat)
    (m : List (Nat × List (Nat × Nat))) (e : Nat × Nat) :
    List (Nat × List (Nat × Nat)) :=
  insertSorted e.1 (insertSorted e.2 (sizeOf e.1 e.2)
    ((lookupSorted e.1 m).getD [])) m

/-- src/bubblegum.rs lines 35-72: the lazily built
`BTreeMap<u8, BTreeMap<u16, usize>>` of structure sizes, keyed first by depth
and then by buffer size. -/
def SIZES (sizeOf : Nat → Nat → Nat) : List (Nat × List (Nat × Nat)) :=
  validPairs.foldl (insertEntry sizeOf) []

/-- `SIZES.range((Bound::Unbounded, Bound::Included(d))).next()`: the first
key of the range in ascending order, i.e. the smallest key of the whole map
whenever that key is ≤ d (src/bubblegum.rs lines 77-80). -/
def firstKeyLE (d : Nat) (m : List (Nat × α)) : Option Nat :=
  (m.map Prod.fst).find? (fun k => k ≤ d)

/-- `SIZES.range((Bound::Included(d), Bound::Unbounded)).next()`: the smallest
key that is ≥ d (src/bubblegum.rs lines 82-84). -/
def firstKeyGE (d : Nat) (m : List (Nat × α)) : Option Nat :=
  (m.map Prod.fst).find? (fun k => d ≤ k)

/-- The failure cases of src/bubblegum.rs `tree_size`, carrying the data
interpolated into the `bail!` message strings.  `sizeConversion` is the
`u64::try_from(...)` context error of line 113 (unreachable on a 64-bit
target, where usize and u64 coincide). -/
inductive CapacityError
  | invalidDepth (depth : Nat) (closest : List Nat)
  | invalidBuffer (buffer : Nat) (valid : List Nat)
  | sizeConversion
deriving DecidableEq

/-- src/bubblegum.rs lines 24-104: `merkle_tree_get_size`.  On a depth miss
the suggested depths are `range((Unbounded, Included(depth))).next()` chained
with `range((Included(depth), Unbounded)).next()`; on a buffer miss the
suggestion is the full key set of the inner map, in ascending order. -/
def merkle_tree_get_size (sizeOf : Nat → Nat → Nat)
    (depth buffer_size : Nat) : Except CapacityError Nat :=
  match lookupSorted depth (SIZES sizeOf) with
  | none => .error (.invalidDepth depth
      ((firstKeyLE depth (SIZES sizeOf)).toList ++
       (firstKeyGE depth (SIZES sizeOf)).toList))
  | some inner =>
    match lookupSorted buffer_size inner with
    | none => .error (.invalidBuffer buffer_size (inner.map Prod.fst))
    | some s => .ok s

/-- 2 ^ 64: the modulus of u64 (and of usize on the 64-bit targets this crate
builds for). -/
def U64LIM : Nat := 18446744073709551616

/-- src/bubblegum.rs line 108 (and src/main.rs line 234):
`((2 << canopy_depth) - 2) * NODE_SIZE` evaluated with Rust release-profile
u64 semantics: the shift amount is masked to the word size, and the
subtraction and multiplication wrap modulo 2 ^ 64. -/
def canopy_size (canopy_depth : Nat) : Nat :=
  ((2 <<< (canopy_depth % 64)) % U64LIM + (U64LIM - 2)) % U64LIM * 32 % U64LIM

/-- src/bubblegum.rs lines 105-115: `tree_size`.  The `u64::try_from` on the
usize sum `CONCURRENT_MERKLE_TREE_HEADER_SIZE_V1 + merkle_tree_get_size(..)`
is the only guarded conversion (it cannot fail on a 64-bit target); the
subsequent `+ canopy_size(canopy_depth)` is unchecked u64 addition. -/
def tree_size (header : Nat) (sizeOf : Nat → Nat → Nat)
    (depth buffer_size canopy_depth : Nat) : Except CapacityError Nat :=
  match merkle_tree_get_size sizeOf depth buffer_size with
  | .error e => .error e
  | .ok s =>
    if (header + s) % U64LIM < U64LIM then
      .ok (((header + s) % U64LIM + canopy_size canopy_depth) % U64LIM)
    else .error .sizeConversion

/-- src/main.rs lines 184-241: the same total, computed inside `create_tree`
from the match-based lookup. -/
def tree_size_main (header : Nat) (sizeOf : Nat → Nat → Nat)
    (depth buffer_size canopy_depth : Nat) : Except String Nat :=
  match merkle_tree_get_size_main sizeOf depth buffer_size with
  | .error e => .error e
  | .ok s =>
    if (header + s) % U64LIM < U64LIM then
      .ok (((header + s) % U64LIM + canopy_size canopy_depth) % U64LIM)
    else .error "Error converting Merkle tree size to 64-bit"

/-- The success projection of an `Except` value: used to compare the two
lookup implementations without identifying their distinct error payloads. -/
def okValue : Except ε α → Option α
  | .ok a => some a
  | .error _ => none

/-- A concrete stand-in for the external `size_of` table, used to evaluate
the embedding at concrete inputs (the lookup structure is independent of the
table's values). -/
def sizeOfExample : Nat → Nat → Nat := fun _ _ => 1000

/-! ### Transaction submission (src/solana.rs `SolanaClient::send_transaction`)

Instructions, blockhashes, transactions and signatures are opaque to this
function; they are represented by `Nat` identifiers.  The remote node and the
signing step are an explicit oracle `RpcEnv`: each field gives the outcome of
the corresponding external call.  `latestBlockhash` is indexed by the number
of previous blockhash fetches, since `get_latest_blockhash` is called twice
(line 30 and line 48). -/

/-- Oracle for the external calls made by `send_transaction`.
`debugAssertions` is `cfg!(debug_assertions)`, the build-mode toggle passed
as `skip_preflight` (line 40). -/
structure RpcEnv where
  latestBlockhash : Nat → Except String Nat
  trySign : List Nat → Option Nat → List Nat → Nat → Except String Nat
  sendTxn : Nat → Bool → Except String Nat
  confirmTxn : Nat → Nat → Except String Unit
  debugAssertions : Bool

/-- The five context labels of src/solana.rs lines 32-54, one per fallible
step, in program order.  The confirm label carries the transaction signature
interpolated into `format!("Error confirming transaction {sig}")`. -/
inductive SubmissionLabel
  | fetchBlockhash
  | buildSign
  | sendTxn
  | confirmFetch
  | confirmPoll (sig : Nat)
deriving DecidableEq

/-- The exact `.context(...)` string attached at each step. -/
def labelText : SubmissionLabel → String
  | .fetchBlockhash => "Error getting latest blockhash"
  | .buildSign => "Error signing transaction"
  | .sendTxn => "Error sending transaction"
  | .confirmFetch => "Error getting recent blockhash"
  | .confirmPoll sig => "Error confirming transaction " ++ toString sig

/-- An anyhow error after `.context(label)`: the stage label wrapping the
underlying cause. -/
structure SubmissionError where
  label : SubmissionLabel
  cause : String
deriving DecidableEq

/-- The external calls `send_transaction` can make, in the order the source
performs them. -/
inductive RpcCall
  | getLatestBlockhash
  | signTxn
  | sendTxn
  | confirmTxn
deriving DecidableEq

/-- What one run of `send_transaction` produced: its returned value, the
sequence of external calls it performed, and the lines it printed. -/
structure SendOutcome where
  result : Except SubmissionError Unit
  calls : List RpcCall
  printed : List String

/-- src/solana.rs lines 18-59: `send_transaction`.  Fetch a blockhash, build
and sign the versioned transaction, send it, re-fetch a blockhash, confirm,
then print the success line and return `Ok(())`.  Each `?` short-circuits
with the stage's context label; no later call happens after a failure. -/
def send_transaction (env : RpcEnv) (instructions : List Nat)
    (payer : Option Nat) (signers : List Nat) : SendOutcome :=
  match env.latestBlockhash 0 with
  | .error e => ⟨.error ⟨.fetchBlockhash, e⟩, [.getLatestBlockhash], []⟩
  | .ok bh =>
    match env.trySign instructions payer signers bh with
    | .error e =>
      ⟨.error ⟨.buildSign, e⟩, [.getLatestBlockhash, .signTxn], []⟩
    | .ok txn =>
      match env.sendTxn txn env.debugAssertions with
      | .error e =>
        ⟨.error ⟨.sendTxn, e⟩, [.getLatestBlockhash, .signTxn, .sendTxn], []⟩
      | .ok sig =>
        match env.latestBlockhash 1 with
        | .error e =>
          ⟨.error ⟨.confirmFetch, e⟩,
           [.getLatestBlockhash, .signTxn, .sendTxn, .getLatestBlockhash], []⟩
        | .ok bh2 =>
          match env.confirmTxn sig bh2 with
          | .error e =>
            ⟨.error ⟨.confirmPoll sig, e⟩,
             [.getLatestBlockhash, .signTxn, .sendTxn, .getLatestBlockhash,
              .confirmTxn], []⟩
          | .ok _ =>
            ⟨.ok (), [.getLatestBlockhash, .signTxn, .sendTxn,
              .getLatestBlockhash, .confirmTxn],
             ["Success! Transaction signature: " ++ toString sig]⟩

/-- A concrete oracle on which every external call succeeds: blockhashes 11
and 12, transaction 21, signature 42. -/
def rpcAllOk : RpcEnv where
  latestBlockhash := fun n => .ok (11 + n)
  trySign := fun _ _ _ _ => .ok 21
  sendTxn := fun _ _ => .ok 42
  confirmTxn := fun _ _ => .ok ()
  debugAssertions := false

/-! ### Signer-source parsing (src/signer.rs `parse_signer_source`)

Tokens are lists of characters.  The `uriparse::URIReference` parse is
modeled by a character-level validity check plus a split into scheme,
authority, path and query; the per-platform Windows quote stripping of lines
115-127 is the identity on the non-Windows targets embedded here (line 130).
`Pubkey::from_str`, `fs::metadata`, `RemoteWalletLocator::new_from_uri` and
the query-string part of `DerivationPath::from_uri_*_query` are external
calls, abstracted as fields of `ParseEnv`. -/

/-- A textual token. -/
abbrev Tok := List Char

/-- String literal to token. -/
def toTok (s : String) : Tok := s.data

/-- RFC 3986 scheme characters after the first: ALPHA / DIGIT / + / - / . -/
def isSchemeChar (c : Char) : Bool :=
  c.isAlpha || c.isDigit || c == '+' || c == '-' || c == '.'

/-- Hexadecimal digit, for percent-encoded octets. -/
def isHexChar (c : Char) : Bool :=
  c.isDigit || ('a' ≤ c && c ≤ 'f') || ('A' ≤ c && c ≤ 'F')

/-- RFC 3986 `pchar` minus percent-encoding: unreserved, sub-delims, ':'
and '@'. -/
def isPchar (c : Char) : Bool :=
  c.isAlphanum || c == '-' || c == '.' || c == '_' || c == '~' ||
  c == '!' || c == '$' || c == '&' || c == Char.ofNat 39 || c == '(' ||
  c == ')' || c == '*' || c == '+' || c == ',' || c == ';' || c == '=' ||
  c == ':' || c == '@'

/-- Character-level well-formedness of a URI reference: every character is a
`pchar` or one of the delimiters, and every '%' starts a two-digit
percent-encoded octet.  Tokens failing this check are the ones
`uriparse::URIReference::try_from` rejects outright. -/
def validUriChars : Tok → Bool
  | [] => true
  | '%' :: a :: b :: rest => isHexChar a && isHexChar b && validUriChars rest
  | '%' :: _ => false
  | c :: rest =>
    (isPchar c || c == '/' || c == '?' || c == '#') && validUriChars rest

/-- A scheme-less relative reference must not contain ':' in its first path
segment (otherwise the prefix would have had to parse as a scheme). -/
def validRelRef (t : Tok) : Bool :=
  (t.takeWhile (fun c => c != '/' && c != '?' && c != '#')).all
    (fun c => c != ':')

/-- Accumulator scan for the scheme: consume scheme characters up to the
first ':'. -/
def schemeSplitAux (acc : Tok) : Tok → Option (Tok × Tok)
  | [] => none
  | c :: rest =>
    if c = ':' then some (acc.reverse, rest)
    else if isSchemeChar c then schemeSplitAux (c :: acc) rest
    else none

/-- Split `scheme ":" rest` when the token begins with a well-formed scheme
(a letter followed by scheme characters and a ':'); otherwise the token is a
relative reference and has no scheme. -/
def schemeSplit : Tok → Option (Tok × Tok)
  | [] => none
  | c :: rest => if c.isAlpha then schemeSplitAux [c] rest else none

/-- A well-formed scheme word: a letter followed by scheme characters. -/
def validSchemeTok : Tok → Bool
  | [] => false
  | c :: rest => c.isAlpha && rest.all isSchemeChar

/-- Split off the query part (after the first '?'). -/
def splitQuery (t : Tok) : Tok × Option Tok :=
  (t.takeWhile (fun c => c != '?'),
   match t.dropWhile (fun c => c != '?') with
   | [] => none
   | _ :: q => some q)

/-- Components (authority, path, query) of the part after the scheme,
dropping any fragment: `"//" authority path` or a bare path. -/
def refOf (t : Tok) : Option Tok × Tok × Option Tok :=
  let noFrag := t.takeWhile (fun c => c != '#')
  let pq := (splitQuery noFrag).1
  let query := (splitQuery noFrag).2
  match pq with
  | '/' :: '/' :: rest =>
    (some (rest.takeWhile (fun c => c != '/')),
     rest.dropWhile (fun c => c != '/'), query)
  | _ => (none, pq, query)

/-- ASCII lowercasing of the scheme: `scheme.as_str().to_ascii_lowercase()`
(src/signer.rs line 137). -/
def lowerTok (t : Tok) : Tok := t.map Char.toLower

/-- src/signer.rs line 70. -/
def SIGNER_SOURCE_PROMPT : Tok := toTok "prompt"

/-- src/signer.rs line 71. -/
def SIGNER_SOURCE_FILEPATH : Tok := toTok "file"

/-- src/signer.rs line 72. -/
def SIGNER_SOURCE_USB : Tok := toTok "usb"

/-- src/signer.rs line 73. -/
def SIGNER_SOURCE_STDIN : Tok := toTok "stdin"

/-- `solana_clap_v3_utils::input_parsers::STDOUT_OUTFILE_TOKEN`, "-". -/
def STDOUT_OUTFILE_TOKEN : Tok := toTok "-"

/-- `solana_clap_v3_utils::keypair::ASK_KEYWORD`, "ASK". -/
def ASK_KEYWORD : Tok := toTok "ASK"

/-- An opaque parsed derivation path (solana-sdk `DerivationPath`). -/
abbrev DerivPath := List Nat

/-- src/signer.rs lines 76-82: `SignerSourceKind`.  The usb locator and the
public key are opaque values produced by external parsers. -/
inductive SignerSourceKind
  | prompt
  | filepath (path : Tok)
  | usb (locator : Tok)
  | stdin
  | pubkey (key : Tok)
deriving DecidableEq

/-- src/signer.rs lines 46-50: `SignerSource`. -/
structure SignerSource where
  kind : SignerSourceKind
  derivation_path : Option DerivPath
  legacy : Bool
deriving DecidableEq

/-- src/signer.rs lines 100-110: `SignerSourceError`. -/
inductive SignerSourceError
  | unrecognizedSource
  | remoteWalletLocatorError
  | derivationPathError
  | ioError
deriving DecidableEq

/-- The external collaborators `parse_signer_source` consults:
`Pubkey::from_str`, `fs::metadata` (an existence probe),
`RemoteWalletLocator::new_from_uri` on the URI's components, and the
query-string parsing inside `DerivationPath::from_uri_any_query` /
`from_uri_key_query`. -/
structure ParseEnv where
  isPubkey : Tok → Bool
  pathExists : Tok → Bool
  locatorFromUri : Option Tok → Tok → Option Tok → Except Unit Tok
  derivationAnyQuery : Tok → Except Unit (Option DerivPath)
  derivationKeyQuery : Tok → Except Unit (Option DerivPath)

/-- `DerivationPath::from_uri_*_query`: a URI with no query component yields
`Ok(None)`; otherwise the query string is handed to the external query
parser. -/
def derivationFromUriQuery (f : Tok → Except Unit (Option DerivPath)) :
    Option Tok → Except Unit (Option DerivPath)
  | none => .ok none
  | some q => f q

/-- src/signer.rs lines 112-177: `parse_signer_source`.  A URI parse, then
dispatch on the lowercased scheme (`prompt`, `file`, `usb`, `stdin`, anything
else an unrecognized source); with no scheme, the reserved tokens "-" and
"ASK", then a public-key parse attempt, then a filesystem existence probe
whose failure is the final error. -/
def parse_signer_source (env : ParseEnv) (source : Tok) :
    Except SignerSourceError SignerSource :=
  if validUriChars source = false then .error .unrecognizedSource
  else
    match schemeSplit source with
    | some (scheme0, rest) =>
      let scheme := lowerTok scheme0
      let auth := (refOf rest).1
      let path := (refOf rest).2.1
      let query := (refOf rest).2.2
      if scheme = SIGNER_SOURCE_PROMPT then
        match derivationFromUriQuery env.derivationAnyQuery query with
        | .error _ => .error .derivationPathError
        | .ok dp => .ok ⟨.prompt, dp, false⟩
      else if scheme = SIGNER_SOURCE_FILEPATH then
        .ok ⟨.filepath path, none, false⟩
      else if scheme = SIGNER_SOURCE_USB then
        match env.locatorFromUri auth path query with
        | .error _ => .error .remoteWalletLocatorError
        | .ok loc =>
          match derivationFromUriQuery env.derivationKeyQuery query with
          | .error _ => .error .derivationPathError
          | .ok dp => .ok ⟨.usb loc, dp, false⟩
      else if scheme = SIGNER_SOURCE_STDIN then .ok ⟨.stdin, none, false⟩
      else .error .unrecognizedSource
    | none =>
      if validRelRef source = false then .error .unrecognizedSource
      else if source = STDOUT_OUTFILE_TOKEN then .ok ⟨.stdin, none, false⟩
      else if source = ASK_KEYWORD then .ok ⟨.prompt, none, true⟩
      else if env.isPubkey source then .ok ⟨.pubkey source, none, false⟩
      else if env.pathExists source then .ok ⟨.filepath source, none, false⟩
      else .error .ioError

/-! ### Mnemonic recovery (src/signer.rs `keypair_from_seed_phrase`)

The interactive prompts are fields of `RecoveryEnv`; `Mnemonic::from_phrase`
is the external checksum validator `validPhrase`.  The result records which
phrase, passphrase, detected language and derivation entry point reach the
key-derivation step; the `confirm_pubkey` re-prompt of lines 280-290 happens
after derivation and can only abort the whole process, so it is outside the
value-level model. -/

/-- The wordlist languages of the bip39 crate used at src/signer.rs lines
254-262. -/
inductive MnLanguage
  | english
  | chineseSimplified
  | chineseTraditional
  | japanese
  | spanish
  | korean
  | french
  | italian
deriving DecidableEq

/-- The fixed language priority order of src/signer.rs lines 254-262. -/
def languageOrder : List MnLanguage :=
  [.english, .chineseSimplified, .chineseTraditional, .japanese,
   .spanish, .korean, .french, .italian]

/-- Drop leading and trailing whitespace: Rust `str::trim` (on the ASCII
whitespace that occurs in these inputs, Rust's Unicode White_Space and
`Char.isWhitespace` agree). -/
def trimChars (l : List Char) : List Char :=
  (((l.dropWhile Char.isWhitespace).reverse).dropWhile Char.isWhitespace).reverse

/-- src/signer.rs line 237: `seed_phrase.trim()`. -/
def strTrim (s : String) : String := String.mk (trimChars s.data)

/-- Rust `str::split_whitespace`: maximal runs of non-whitespace characters,
accumulated left to right. -/
def wordsAux : List Char → List Char → List (List Char)
  | [], acc => if acc = [] then [] else [acc.reverse]
  | c :: rest, acc =>
    if c.isWhitespace then
      if acc = [] then wordsAux rest [] else acc.reverse :: wordsAux rest []
    else wordsAux rest (c :: acc)

/-- The words of a character list. -/
def splitWords (l : List Char) : List (List Char) := wordsAux l []

/-- `collect::<Vec<&str>>().join(" ")`: single spaces between words. -/
def joinSpace : List (List Char) → List Char
  | [] => []
  | [w] => w
  | w :: ws => w ++ ' ' :: joinSpace ws

/-- src/signer.rs lines 295-300: `sanitize_seed_phrase` — split on
whitespace runs and re-join the words with single spaces. -/
def sanitize_seed_phrase (seed_phrase : String) : String :=
  String.mk (joinSpace (splitWords seed_phrase.data))

/-- The failure modes of the recovery routine. -/
inductive RecoveryError
  | passphraseMismatch
  | unknownLanguage
deriving DecidableEq

/-- Interactive inputs and the external checksum validator. -/
structure RecoveryEnv where
  promptedPhrase : String
  promptedPassphrase : String
  confirmEntry : String
  validPhrase : String → MnLanguage → Bool

/-- src/signer.rs lines 179-188: `prompt_passphrase` — a non-empty
passphrase must be re-entered identically. -/
def prompt_passphrase (entered confirm : String) : Except RecoveryError String :=
  if entered ≠ "" ∧ confirm ≠ entered then .error .passphraseMismatch
  else .ok entered

/-- Which solana-sdk derivation entry point the routine ends up calling. -/
inductive DeriveRoute
  | phrasePassphrase
  | seedWithPath
  | rawSeed
  | seedWithPathValidated
deriving DecidableEq

/-- What reaches the key-derivation step. -/
structure RecoveryTrace where
  phraseUsed : String
  passphrase : String
  language : Option MnLanguage
  route : DeriveRoute
deriving DecidableEq

/-- src/signer.rs lines 230-293: `keypair_from_seed_phrase`.  The prompted
phrase is trimmed; with `skip_seed_phrase_validation` the trimmed phrase goes
straight to the passphrase prompt and derivation, otherwise it is sanitized
and checksum-validated against the languages in order (first match wins)
before the passphrase prompt and derivation. -/
def keypair_from_seed_phrase (skip_validation legacy : Bool)
    (env : RecoveryEnv) : Except RecoveryError RecoveryTrace :=
  let seed_phrase := strTrim env.promptedPhrase
  if skip_validation then
    match prompt_passphrase env.promptedPassphrase env.confirmEntry with
    | .error e => .error e
    | .ok pass =>
      .ok ⟨seed_phrase, pass, none,
        if legacy then .phrasePassphrase else .seedWithPath⟩
  else
    let sanitized := sanitize_seed_phrase seed_phrase
    match languageOrder.find? (fun l => env.validPhrase sanitized l) with
    | none => .error .unknownLanguage
    | some lang =>
      match prompt_passphrase env.promptedPassphrase env.confirmEntry with
      | .error e => .error e
      | .ok pass =>
        .ok ⟨sanitized, pass, some lang,
          if legacy then .rawSeed else .seedWithPathValidated⟩

/-! ### Keypair resolution (src/signer.rs `keypair_from_path`) -/

/-- A resolved key pair, tagged by how it was produced; the key-pair value
itself is opaque (`Nat`). -/
inductive ResolvedSigner
  | fromFile (k : Nat)
  | fromStdin (k : Nat)
  | fromPrompt (trace : RecoveryTrace)
deriving DecidableEq

/-- The error channel of `keypair_from_path` (`Box<dyn Error>` in the
source): a parse error, an io-style message, or a recovery failure. -/
inductive ResolveError
  | sourceError (e : SignerSourceError)
  | ioMessage (text : String)
  | recoveryError (e : RecoveryError)
deriving DecidableEq

/-- src/signer.rs lines 84-94: `AsRef<str> for SignerSourceKind`, also the
`Debug` rendering used in the unsupported-kind message. -/
def kindName : SignerSourceKind → String
  | .prompt => "prompt"
  | .filepath _ => "file"
  | .usb _ => "usb"
  | .stdin => "stdin"
  | .pubkey _ => "pubkey"

/-- External effects of resolution: reading and deserializing a keypair file
(`read_keypair_file`) or the standard input stream (`read_keypair`), plus the
interactive recovery environment and the `--skip-seed-phrase-validation`
flag. -/
structure ResolveEnv where
  parseEnv : ParseEnv
  readKeypairFile : Tok → Except String Nat
  readStdinKeypair : Except String Nat
  recovery : RecoveryEnv
  skip_seed_phrase_validation : Bool

/-- src/signer.rs lines 190-228: `keypair_from_path`.  Parse the source
token, then dispatch: prompt runs mnemonic recovery, a file path is read and
deserialized (failure wraps the path in the "could not read keypair file"
message with the solana-keygen hint), stdin reads the stream, and the
remaining kinds cannot produce a key pair. -/
def keypair_from_path (env : ResolveEnv) (path : Tok) :
    Except ResolveError ResolvedSigner :=
  match parse_signer_source env.parseEnv path with
  | .error e => .error (.sourceError e)
  | .ok src =>
    match src.kind with
    | .prompt =>
      match keypair_from_seed_phrase env.skip_seed_phrase_validation
          src.legacy env.recovery with
      | .error e => .error (.recoveryError e)
      | .ok tr => .ok (.fromPrompt tr)
    | .filepath p =>
      match env.readKeypairFile p with
      | .error e => .error (.ioMessage
          ("could not read keypair file \"" ++ String.mk p ++
           "\". Run \"solana-keygen new\" to create a keypair file: " ++ e))
      | .ok k => .ok (.fromFile k)
    | .stdin =>
      match env.readStdinKeypair with
      | .error e => .error (.ioMessage e)
      | .ok k => .ok (.fromStdin k)
    | k => .error (.ioMessage
        ("signer of type `" ++ kindName k ++ "` does not support Keypair output"))

/-! ### Concrete environments used to evaluate the embedding -/

/-- An oracle whose very first call (the blockhash fetch) fails. -/
def rpcFailFetch : RpcEnv where
  latestBlockhash := fun _ => .error "boom"
  trySign := fun _ _ _ _ => .error "unused"
  sendTxn := fun _ _ => .error "unused"
  confirmTxn := fun _ _ => .error "unused"
  debugAssertions := false

/-- An oracle on which everything succeeds except the final confirmation. -/
def rpcFailConfirm : RpcEnv where
  latestBlockhash := fun n => .ok (11 + n)
  trySign := fun _ _ _ _ => .ok 21
  sendTxn := fun _ _ => .ok 42
  confirmTxn := fun _ _ => .error "timeout"
  debugAssertions := false

/-- Parser externals for concrete runs: no token is a public key, no path
exists, the locator parser echoes the URI path, query parsing always fails
(no run below carries a query). -/
def envParseEx : ParseEnv where
  isPubkey := fun _ => false
  pathExists := fun _ => false
  locatorFromUri := fun _ p _ => .ok p
  derivationAnyQuery := fun _ => .error ()
  derivationKeyQuery := fun _ => .error ()

/-- Recovery inputs with a phrase containing an internal double space and
empty passphrases; every language validates every phrase. -/
def envC3 : RecoveryEnv where
  promptedPhrase := " a  b "
  promptedPassphrase := ""
  confirmEntry := ""
  validPhrase := fun _ _ => true

/-- Recovery inputs whose phrase validates in Spanish and in French (and in
no other language). -/
def envC6 : RecoveryEnv where
  promptedPhrase := "w x"
  promptedPassphrase := "p"
  confirmEntry := "p"
  validPhrase := fun _ l =>
    match l with
    | .spanish => true
    | .french => true
    | _ => false

/-- Resolution externals where every keypair-file read fails with the OS
missing-file error. -/
def envMissing : ResolveEnv where
  parseEnv := envParseEx
  readKeypairFile := fun _ => .error "No such file or directory (os error 2)"
  readStdinKeypair := .error "empty"
  recovery := envC3
  skip_seed_phrase_validation := false

/-! ## Theorems -/

/-- The fully evaluated form of the `SIZES` map: sorted by depth, inner maps
sorted by buffer size, independent of the external size table's values. -/
theorem SIZES_eq (sizeOf : Nat → Nat → Nat) :
    SIZES sizeOf =
      [(3, [(8, sizeOf 3 8)]),
       (5, [(8, sizeOf 5 8)]),
       (14, [(64, sizeOf 14 64), (256, sizeOf 14 256), (1024, sizeOf 14 1024),
             (2048, sizeOf 14 2048)]),
       (15, [(64, sizeOf 15 64)]),
       (16, [(64, sizeOf 16 64)]),
       (17, [(64, sizeOf 17 64)]),
       (18, [(64, sizeOf 18 64)]),
       (19, [(64, sizeOf 19 64)]),
       (20, [(64, sizeOf 20 64), (256, sizeOf 20 256), (1024, sizeOf 20 1024),
             (2048, sizeOf 20 2048)]),
       (24, [(64, sizeOf 24 64), (256, sizeOf 24 256), (512, sizeOf 24 512),
             (1024, sizeOf 24 1024), (2048, sizeOf 24 2048)]),
       (26, [(512, sizeOf 26 512), (1024, sizeOf 26 1024),
             (2048, sizeOf 26 2048)]),
       (30, [(512, sizeOf 30 512), (1024, sizeOf 30 1024),
             (2048, sizeOf 30 2048)])] := by
  simp [SIZES, validPairs, insertEntry, insertSorted, lookupSorted]

/-- C1: the depth-miss suggestion is NOT the predecessor/successor pair the
spec describes.  For requested depth 6 the valid depths ≤ 6 are 3 and 5, so
the predecessor is 5 and the successor is 14; but
`range((Unbounded, Included(6))).next()` takes the range's first key in
ascending order, i.e. the map minimum 3, so the failure reports 3 and 14.
(The buffer-miss arm does report the full sorted fan-out set, as claimed.) -/
theorem capacity_depth_suggestion_code_bug :
    merkle_tree_get_size sizeOfExample 6 8 =
      .error (.invalidDepth 6 [3, 14]) ∧
    ((SIZES sizeOfExample).map Prod.fst) =
      [3, 5, 14, 15, 16, 17, 18, 19, 20, 24, 26, 30] ∧
    merkle_tree_get_size sizeOfExample 14 100 =
      .error (.invalidBuffer 100 [64, 256, 1024, 2048]) :=
  ⟨rfl, rfl, rfl⟩

/-- For canopy depths up to 58 the wrapping u64 evaluation agrees with the
mathematical formula `(2 ^ (d + 1) - 2) * 32`. -/
theorem canopy_size_closed (c : Nat) (hc : c ≤ 58) :
    canopy_size c = (2 ^ (c + 1) - 2) * 32 := by
  have hlt : c < 64 := by omega
  have h2 : (2 : Nat) ^ (c + 1) ≤ 2 ^ 59 :=
    Nat.pow_le_pow_right (by norm_num) (by omega)
  have h59 : (2 : Nat) ^ 59 = 576460752303423488 := by norm_num
  have h1 : (2 : Nat) ≤ 2 ^ (c + 1) := by
    calc (2 : Nat) = 2 ^ 1 := (pow_one 2).symm
    _ ≤ 2 ^ (c + 1) := Nat.pow_le_pow_right (by norm_num) (by omega)
  unfold canopy_size U64LIM
  rw [Nat.mod_eq_of_lt hlt, Nat.shiftLeft_eq]
  have hp : (2 : Nat) * 2 ^ c = 2 ^ (c + 1) := by rw [pow_succ]; ring
  rw [hp]
  omega

/-- C7 (amended): the returned total is
`header + structure + canopy_size(canopy_depth)` with
`canopy_size(d) = (2^(d+1) - 2) * 32` whenever that arithmetic fits in u64
(canopy_depth ≤ 58 and no overflow of the sum); `canopy_size 0 = 0`; raising
the canopy depth from 0 to 1 adds exactly 2 * 32 = 64 bytes; `canopy_size`
is strictly increasing up to depth 58.  However the canopy arithmetic is
unchecked: for every valid pair the lookup's total is ALWAYS returned as a
success, wrapped modulo 2^64 — the only guarded step is the usize → u64
conversion of header + structure, which cannot fire on a 64-bit target. -/
theorem tree_size_canopy_amended :
    canopy_size 0 = 0 ∧
    canopy_size 1 = 64 ∧
    (∀ c, c < 58 → canopy_size c < canopy_size (c + 1)) ∧
    (∀ header sizeOf depth buffer_size canopy_depth s,
      merkle_tree_get_size sizeOf depth buffer_size = .ok s →
      ∃ v, tree_size header sizeOf depth buffer_size canopy_depth = .ok v) ∧
    (∀ header sizeOf depth buffer_size canopy_depth s,
      merkle_tree_get_size sizeOf depth buffer_size = .ok s →
      canopy_depth ≤ 58 →
      header + s + canopy_size canopy_depth < U64LIM →
      tree_size header sizeOf depth buffer_size canopy_depth =
        .ok (header + s + (2 ^ (canopy_depth + 1) - 2) * 32)) := by
  have hN : 0 < U64LIM := by norm_num [U64LIM]
  refine ⟨rfl, rfl, ?_, ?_, ?_⟩
  · intro c hc
    rw [canopy_size_closed c (by omega), canopy_size_closed (c + 1) (by omega)]
    have hlt : (2 : Nat) ^ (c + 1) < 2 ^ (c + 1 + 1) :=
      Nat.pow_lt_pow_right (by norm_num) (by omega)
    have h1 : (2 : Nat) ≤ 2 ^ (c + 1) := by
      calc (2 : Nat) = 2 ^ 1 := (pow_one 2).symm
      _ ≤ 2 ^ (c + 1) := Nat.pow_le_pow_right (by norm_num) (by omega)
    omega
  · intro header sizeOf depth buffer_size canopy_depth s hok
    refine ⟨((header + s) % U64LIM + canopy_size canopy_depth) % U64LIM, ?_⟩
    simp only [tree_size, hok]
    rw [if_pos (Nat.mod_lt _ hN)]
  · intro header sizeOf depth buffer_size canopy_depth s hok hc hsum
    simp only [tree_size, hok]
    rw [if_pos (Nat.mod_lt _ hN)]
    rw [canopy_size_closed canopy_depth hc] at hsum ⊢
    have hhs : header + s < U64LIM := by omega
    rw [Nat.mod_eq_of_lt hhs, Nat.mod_eq_of_lt hsum]

/-- C7 witness: a concrete valid pair at canopy depth 1, via the amended
theorem's formula conjunct. -/
theorem tree_size_canopy_amended_witness :
    tree_size 56 sizeOfExample 3 8 1 =
      .ok (56 + 1000 + (2 ^ (1 + 1) - 2) * 32) :=
  tree_size_canopy_amended.2.2.2.2 56 sizeOfExample 3 8 1 1000 rfl
    (by norm_num) (by decide)

/-- C7 counterexample: at canopy depth 62 the mathematical total exceeds
2^64, yet `tree_size` returns a wrapped success (992 bytes) instead of a
failure; and the wrapping evaluation is not monotone: the release-profile
shift mask sends canopy depth 64 back to 0. -/
theorem canopy_overflow_counterexample :
    tree_size 56 sizeOfExample 3 8 62 = .ok 992 ∧
    U64LIM ≤ 56 + 1000 + (2 ^ 63 - 2) * 32 ∧
    canopy_size 64 = 0 ∧
    canopy_size 64 < canopy_size 63 :=
  ⟨rfl, by norm_num [U64LIM], rfl, by decide⟩

/-- C9: the match-based lookup inlined in src/main.rs `create_tree` and the
BTreeMap-based lookup of src/bubblegum.rs agree on every (depth,
buffer_size) pair: both succeed with the same structure size (for any value
of the shared external size table) or both fail; consequently the two total
sizes agree for every header value and canopy depth. -/
theorem merkle_tree_get_size_equivalence
    (sizeOf : Nat → Nat → Nat) (depth buffer_size : Nat) :
    okValue (merkle_tree_get_size_main sizeOf depth buffer_size) =
      okValue (merkle_tree_get_size sizeOf depth buffer_size) ∧
    ∀ header canopy_depth,
      okValue (tree_size_main header sizeOf depth buffer_size canopy_depth) =
        okValue (tree_size header sizeOf depth buffer_size canopy_depth) := by
  have hmain : okValue (merkle_tree_get_size_main sizeOf depth buffer_size) =
      okValue (merkle_tree_get_size sizeOf depth buffer_size) := by
    unfold merkle_tree_get_size_main merkle_tree_get_size
    rw [SIZES_eq]
    by_cases h3 : depth = 3
    · subst h3
      simp only [lookupSorted]
      norm_num
      split_ifs <;> simp_all [lookupSorted, okValue]
    by_cases h5 : depth = 5
    · subst h5
      simp only [lookupSorted]
      norm_num
      split_ifs <;> simp_all [lookupSorted, okValue]
    by_cases h14 : depth = 14
    · subst h14
      simp only [lookupSorted]
      norm_num
      split_ifs <;> simp_all [lookupSorted, okValue]
    by_cases h15 : depth = 15
    · subst h15
      simp only [lookupSorted]
      norm_num
      split_ifs <;> simp_all [lookupSorted, okValue]
    by_cases h16 : depth = 16
    · subst h16
      simp only [lookupSorted]
      norm_num
      split_ifs <;> simp_all [lookupSorted, okValue]
    by_cases h17 : depth = 17
    · subst h17
      simp only [lookupSorted]
      norm_num
      split_ifs <;> simp_all [lookupSorted, okValue]
    by_cases h18 : depth = 18
    · subst h18
      simp only [lookupSorted]
      norm_num
      split_ifs <;> simp_all [lookupSorted, okValue]
    by_cases h19 : depth = 19
    · subst h19
      simp only [lookupSorted]
      norm_num
      split_ifs <;> simp_all [lookupSorted, okValue]
    by_cases h20 : depth = 20
    · subst h20
      simp only [lookupSorted]
      norm_num
      split_ifs <;> simp_all [lookupSorted, okValue]
    by_cases h24 : depth = 24
    · subst h24
      simp only [lookupSorted]
      norm_num
      split_ifs <;> simp_all [lookupSorted, okValue]
    by_cases h26 : depth = 26
    · subst h26
      simp only [lookupSorted]
      norm_num
      split_ifs <;> simp_all [lookupSorted, okValue]
    by_cases h30 : depth = 30
    · subst h30
      simp only [lookupSorted]
      norm_num
      split_ifs <;> simp_all [lookupSorted, okValue]
    simp [lookupSorted, h3, h5, h14, h15, h16, h17, h18, h19, h20, h24,
      h26, h30, okValue]
  refine ⟨hmain, ?_⟩
  intro header canopy_depth
  have hN : 0 < U64LIM := by norm_num [U64LIM]
  cases h1 : merkle_tree_get_size_main sizeOf depth buffer_size with
  | error e1 =>
    cases h2 : merkle_tree_get_size sizeOf depth buffer_size with
    | error e2 => simp only [tree_size_main, tree_size, h1, h2, okValue]
    | ok s2 => rw [h1, h2] at hmain; simp [okValue] at hmain
  | ok s1 =>
    cases h2 : merkle_tree_get_size sizeOf depth buffer_size with
    | error e2 => rw [h1, h2] at hmain; simp [okValue] at hmain
    | ok s2 =>
      rw [h1, h2] at hmain
      simp only [okValue, Option.some.injEq] at hmain
      subst hmain
      simp only [tree_size_main, tree_size, h1, h2]
      rw [if_pos (Nat.mod_lt _ hN), if_pos (Nat.mod_lt _ hN)]
      rfl

/-- C2 counterexample: on an oracle where every external call succeeds, the
submission routine itself prints the user-facing success message
(src/solana.rs line 56) and returns unit to its caller — it does not return
the signature, and the success message is not left to the caller. -/
theorem send_transaction_success_output_counterexample :
    (send_transaction rpcAllOk [1] (some 7) [7]).printed =
      ["Success! Transaction signature: 42"] ∧
    (send_transaction rpcAllOk [1] (some 7) [7]).result = .ok () :=
  ⟨rfl, rfl⟩

/-- C2 (amended): on success `send_transaction` performs all five external
calls in order, returns unit, and itself prints the success line embedding
the signature; the caller receives no signature value. -/
theorem send_transaction_success_returns_unit_prints :
    ∀ (env : RpcEnv) (ins : List Nat) (payer : Option Nat)
      (signers : List Nat) (bh txn sig bh2 : Nat),
      env.latestBlockhash 0 = .ok bh →
      env.trySign ins payer signers bh = .ok txn →
      env.sendTxn txn env.debugAssertions = .ok sig →
      env.latestBlockhash 1 = .ok bh2 →
      env.confirmTxn sig bh2 = .ok () →
      send_transaction env ins payer signers =
        ⟨.ok (), [.getLatestBlockhash, .signTxn, .sendTxn,
          .getLatestBlockhash, .confirmTxn],
         ["Success! Transaction signature: " ++ toString sig]⟩ := by
  intro env ins payer signers bh txn sig bh2 hbh hsign hsend hbh2 hconf
  simp only [send_transaction, hbh, hsign, hsend, hbh2, hconf]

/-- C2 witness: the amended theorem applied to the all-success oracle. -/
theorem send_transaction_success_returns_unit_prints_witness :
    send_transaction rpcAllOk [1] (some 7) [7] =
      ⟨.ok (), [.getLatestBlockhash, .signTxn, .sendTxn,
        .getLatestBlockhash, .confirmTxn],
       ["Success! Transaction signature: " ++ toString 42]⟩ :=
  send_transaction_success_returns_unit_prints rpcAllOk [1] (some 7) [7]
    11 21 42 12 rfl rfl rfl rfl rfl

/-- C4: the submission pipeline runs its stages strictly in order — fetch
blockhash, build-and-sign, send, then confirm-poll (which itself starts with
a blockhash re-fetch under its own label) — a failure at any point returns
that point's distinct context label wrapping the underlying cause, the
confirm-poll label embeds the transaction signature, and no later external
call is performed after a failure. -/
theorem send_transaction_stage_order :
    ∀ (env : RpcEnv) (ins : List Nat) (payer : Option Nat)
      (signers : List Nat),
      (∀ e, env.latestBlockhash 0 = .error e →
        send_transaction env ins payer signers =
          ⟨.error ⟨.fetchBlockhash, e⟩, [.getLatestBlockhash], []⟩) ∧
      (∀ bh e, env.latestBlockhash 0 = .ok bh →
        env.trySign ins payer signers bh = .error e →
        send_transaction env ins payer signers =
          ⟨.error ⟨.buildSign, e⟩, [.getLatestBlockhash, .signTxn], []⟩) ∧
      (∀ bh txn e, env.latestBlockhash 0 = .ok bh →
        env.trySign ins payer signers bh = .ok txn →
        env.sendTxn txn env.debugAssertions = .error e →
        send_transaction env ins payer signers =
          ⟨.error ⟨.sendTxn, e⟩,
           [.getLatestBlockhash, .signTxn, .sendTxn], []⟩) ∧
      (∀ bh txn sig e, env.latestBlockhash 0 = .ok bh →
        env.trySign ins payer signers bh = .ok txn →
        env.sendTxn txn env.debugAssertions = .ok sig →
        env.latestBlockhash 1 = .error e →
        send_transaction env ins payer signers =
          ⟨.error ⟨.confirmFetch, e⟩,
           [.getLatestBlockhash, .signTxn, .sendTxn,
            .getLatestBlockhash], []⟩) ∧
      (∀ bh txn sig bh2 e, env.latestBlockhash 0 = .ok bh →
        env.trySign ins payer signers bh = .ok txn →
        env.sendTxn txn env.debugAssertions = .ok sig →
        env.latestBlockhash 1 = .ok bh2 →
        env.confirmTxn sig bh2 = .error e →
        send_transaction env ins payer signers =
          ⟨.error ⟨.confirmPoll sig, e⟩,
           [.getLatestBlockhash, .signTxn, .sendTxn, .getLatestBlockhash,
            .confirmTxn], []⟩) ∧
      ([labelText .fetchBlockhash, labelText .buildSign, labelText .sendTxn,
        labelText .confirmFetch].Pairwise (fun a b => a ≠ b) ∧
       ∀ sig, (SubmissionLabel.confirmPoll sig ≠ .fetchBlockhash ∧
          SubmissionLabel.confirmPoll sig ≠ .buildSign ∧
          SubmissionLabel.confirmPoll sig ≠ .sendTxn ∧
          SubmissionLabel.confirmPoll sig ≠ .confirmFetch) ∧
        labelText (.confirmPoll sig) =
          "Error confirming transaction " ++ toString sig) := by
  intro env ins payer signers
  refine ⟨?_, ?_, ?_, ?_, ?_, ?_, ?_⟩
  · intro e h1
    simp only [send_transaction, h1]
  · intro bh e h1 h2
    simp only [send_transaction, h1, h2]
  · intro bh txn e h1 h2 h3
    simp only [send_transaction, h1, h2, h3]
  · intro bh txn sig e h1 h2 h3 h4
    simp only [send_transaction, h1, h2, h3, h4]
  · intro bh txn sig bh2 e h1 h2 h3 h4 h5
    simp only [send_transaction, h1, h2, h3, h4, h5]
  · decide
  · intro sig
    exact ⟨⟨by simp, by simp, by simp, by simp⟩, rfl⟩

/-- C4 witness: the staged theorem applied to an oracle whose first fetch
fails and to one whose confirmation fails. -/
theorem send_transaction_stage_order_witness :
    send_transaction rpcFailFetch [] none [] =
      ⟨.error ⟨.fetchBlockhash, "boom"⟩, [.getLatestBlockhash], []⟩ ∧
    send_transaction rpcFailConfirm [] none [] =
      ⟨.error ⟨.confirmPoll 42, "timeout"⟩,
       [.getLatestBlockhash, .signTxn, .sendTxn, .getLatestBlockhash,
        .confirmTxn], []⟩ :=
  ⟨(send_transaction_stage_order rpcFailFetch [] none []).1 "boom" rfl,
   (send_transaction_stage_order rpcFailConfirm [] none []).2.2.2.2.1
     11 21 42 12 "timeout" rfl rfl rfl rfl rfl⟩

/-- C3 counterexample: with `--skip-seed-phrase-validation` set, the phrase
reaching derivation is only trimmed, not whitespace-canonicalized: the
prompted phrase " a  b " is used as "a  b", which differs from its
canonicalized form "a b". -/
theorem skip_validation_phrase_counterexample :
    keypair_from_seed_phrase true false envC3 =
      .ok ⟨"a  b", "", none, .seedWithPath⟩ ∧
    sanitize_seed_phrase " a  b " = "a b" ∧
    strTrim " a  b " = "a  b" ∧
    ("a  b" : String) ≠ "a b" :=
  ⟨rfl, rfl, rfl, by decide⟩

/-- C3 (amended): the phrase used for validation and derivation is always
the trimmed input; internal whitespace runs are additionally collapsed to
single spaces only on the validation path, i.e. when
`--skip-seed-phrase-validation` is NOT set (word order and casing are
preserved in both cases). -/
theorem seed_phrase_normalization_amended :
    ∀ (skip_validation legacy : Bool) (env : RecoveryEnv)
      (tr : RecoveryTrace),
      keypair_from_seed_phrase skip_validation legacy env = .ok tr →
      tr.phraseUsed = (if skip_validation then strTrim env.promptedPhrase
        else sanitize_seed_phrase (strTrim env.promptedPhrase)) := by
  intro skip legacy env tr h
  cases skip with
  | true =>
    simp only [keypair_from_seed_phrase, if_true] at h
    cases hp : prompt_passphrase env.promptedPassphrase env.confirmEntry with
    | error e => rw [hp] at h; exact absurd h (by simp)
    | ok pass =>
      rw [hp] at h
      injection h with h2
      subst h2
      simp
  | false =>
    simp only [keypair_from_seed_phrase] at h
    rw [if_neg (by simp)] at h
    cases hf : languageOrder.find?
        (fun l => env.validPhrase
          (sanitize_seed_phrase (strTrim env.promptedPhrase)) l) with
    | none => rw [hf] at h; exact absurd h (by simp)
    | some lang =>
      rw [hf] at h
      cases hp : prompt_passphrase env.promptedPassphrase env.confirmEntry with
      | error e => rw [hp] at h; exact absurd h (by simp)
      | ok pass =>
        rw [hp] at h
        injection h with h2
        subst h2
        simp

/-- C3 witness: the amended theorem applied to the double-space phrase with
validation skipped. -/
theorem seed_phrase_normalization_amended_witness :
    (⟨"a  b", "", none, DeriveRoute.seedWithPath⟩ : RecoveryTrace).phraseUsed =
      (if true then strTrim envC3.promptedPhrase
       else sanitize_seed_phrase (strTrim envC3.promptedPhrase)) :=
  seed_phrase_normalization_amended true false envC3
    ⟨"a  b", "", none, .seedWithPath⟩ rfl

/-- `find?` returns the earliest satisfying element: its index is at or
before the index of any element satisfying the predicate. -/
theorem find?_first_index {α : Type} [DecidableEq α] (p : α → Bool)
    (xs : List α) (a b : α) (hfind : xs.find? p = some a)
    (hmem : b ∈ xs) (hpb : p b = true) :
    xs.indexOf a ≤ xs.indexOf b := by
  induction xs with
  | nil => simp at hfind
  | cons x xs ih =>
    by_cases hx : p x = true
    · rw [List.find?_cons_of_pos _ hx] at hfind
      have hax : a = x := by
        injection hfind with h
        exact h.symm
      subst hax
      simp
    · rw [List.find?_cons_of_neg _ hx] at hfind
      have hpa : p a = true := List.find?_some hfind
      have hax : a ≠ x := fun he => hx (he ▸ hpa)
      have hbx : b ≠ x := fun he => hx (he ▸ hpb)
      have hmem2 : b ∈ xs := by
        rcases List.mem_cons.mp hmem with h | h
        · exact absurd h hbx
        · exact h
      have hle := ih hfind hmem2
      rw [List.indexOf_cons_ne _ (Ne.symm hax), List.indexOf_cons_ne _ (Ne.symm hbx)]
      omega

/-- Dissection of the validated branch: the detected language is exactly
what `find?` over the fixed language order yields on the sanitized phrase. -/
theorem keypair_language_eq_find (legacy : Bool) (env : RecoveryEnv)
    (tr : RecoveryTrace)
    (h : keypair_from_seed_phrase false legacy env = .ok tr) :
    tr.language = languageOrder.find?
      (fun l => env.validPhrase
        (sanitize_seed_phrase (strTrim env.promptedPhrase)) l) := by
  simp only [keypair_from_seed_phrase] at h
  rw [if_neg (by simp)] at h
  cases hf : languageOrder.find?
      (fun l => env.validPhrase
        (sanitize_seed_phrase (strTrim env.promptedPhrase)) l) with
  | none => rw [hf] at h; exact absurd h (by simp)
  | some lang =>
    rw [hf] at h
    cases hp : prompt_passphrase env.promptedPassphrase env.confirmEntry with
    | error e => rw [hp] at h; exact absurd h (by simp)
    | ok pass =>
      rw [hp] at h
      injection h with h2
      subst h2
      rfl

/-- C6: language detection walks the fixed list (English first) and accepts
the first language whose checksum validates, so an ambiguous phrase always
resolves to the earliest valid entry; when no language validates, recovery
fails hard with the unknown-language error (before any passphrase prompt or
derivation). -/
theorem mnemonic_language_first_match :
    languageOrder.head? = some .english ∧
    (∀ (legacy : Bool) (env : RecoveryEnv) (tr : RecoveryTrace),
      keypair_from_seed_phrase false legacy env = .ok tr →
      tr.language = languageOrder.find?
        (fun l => env.validPhrase
          (sanitize_seed_phrase (strTrim env.promptedPhrase)) l)) ∧
    (∀ (legacy : Bool) (env : RecoveryEnv) (tr : RecoveryTrace)
      (lang l2 : MnLanguage),
      keypair_from_seed_phrase false legacy env = .ok tr →
      tr.language = some lang →
      l2 ∈ languageOrder →
      env.validPhrase (sanitize_seed_phrase (strTrim env.promptedPhrase)) l2 =
        true →
      languageOrder.indexOf lang ≤ languageOrder.indexOf l2) ∧
    (∀ (legacy : Bool) (env : RecoveryEnv),
      (∀ l, l ∈ languageOrder →
        env.validPhrase (sanitize_seed_phrase (strTrim env.promptedPhrase)) l =
          false) →
      keypair_from_seed_phrase false legacy env = .error .unknownLanguage) := by
  refine ⟨rfl, ?_, ?_, ?_⟩
  · exact keypair_language_eq_find
  · intro legacy env tr lang l2 h hlang hmem hvalid
    have hfind := keypair_language_eq_find legacy env tr h
    rw [hlang] at hfind
    exact find?_first_index _ languageOrder lang l2 hfind.symm hmem hvalid
  · intro legacy env hnone
    have hfind : languageOrder.find?
        (fun l => env.validPhrase
          (sanitize_seed_phrase (strTrim env.promptedPhrase)) l) = none :=
      List.find?_eq_none.mpr (fun x hx => by rw [hnone x hx]; simp)
    simp only [keypair_from_seed_phrase]
    rw [if_neg (by simp), hfind]

/-- C6 witness: a phrase valid in Spanish and French resolves to Spanish,
the earlier entry of the fixed order, via the first-match theorem. -/
theorem mnemonic_language_first_match_witness :
    (⟨"w x", "p", some MnLanguage.spanish,
      DeriveRoute.seedWithPathValidated⟩ : RecoveryTrace).language =
      languageOrder.find?
        (fun l => envC6.validPhrase
          (sanitize_seed_phrase (strTrim envC6.promptedPhrase)) l) :=
  mnemonic_language_first_match.2.1 false envC6
    ⟨"w x", "p", some .spanish, .seedWithPathValidated⟩ rfl

/-- Scanning a scheme consumes exactly the scheme characters up to the
':'. -/
theorem schemeSplitAux_append (xs : Tok) (r : Tok)
    (h : xs.all isSchemeChar = true) :
    ∀ acc, schemeSplitAux acc (xs ++ ':' :: r) = some (acc.reverse ++ xs, r) := by
  induction xs with
  | nil =>
    intro acc
    simp [schemeSplitAux]
  | cons x xs ih =>
    intro acc
    rw [List.all_cons, Bool.and_eq_true] at h
    have hx : ¬ x = ':' := by
      intro he
      subst he
      exact absurd h.1 (by decide)
    simp only [List.cons_append, schemeSplitAux, List.append_eq]
    rw [if_neg hx, if_pos h.1, ih h.2 (x :: acc)]
    simp

/-- A token of the form `scheme ":" rest` with a well-formed scheme splits
at the ':'. -/
theorem schemeSplit_append (s r : Tok) (h : validSchemeTok s = true) :
    schemeSplit (s ++ ':' :: r) = some (s, r) := by
  cases s with
  | nil => simp [validSchemeTok] at h
  | cons c cs =>
    simp only [validSchemeTok, Bool.and_eq_true] at h
    simp only [List.cons_append, schemeSplit]
    rw [if_pos h.1, schemeSplitAux_append cs r h.2 [c]]
    simp

/-- C5: the round-trip classification of `parse_signer_source`.  For each of
the four scheme keywords (matched case-insensitively) a `scheme:rest` token
parses to the matching tagged variant; any other scheme is a parse failure;
a schemeless token that is a syntactically valid public key parses to the
public-key-only variant; a schemeless non-keyword, non-public-key token
parses to the file-path variant exactly when the path exists, and fails to
parse when it does not. -/
theorem parse_signer_source_classification :
    ∀ (env : ParseEnv),
      (∀ s rest auth path,
        validSchemeTok s = true →
        lowerTok s = SIGNER_SOURCE_PROMPT →
        validUriChars (s ++ ':' :: rest) = true →
        refOf rest = (auth, path, none) →
        parse_signer_source env (s ++ ':' :: rest) =
          .ok ⟨.prompt, none, false⟩) ∧
      (∀ s rest auth path query,
        validSchemeTok s = true →
        lowerTok s = SIGNER_SOURCE_FILEPATH →
        validUriChars (s ++ ':' :: rest) = true →
        refOf rest = (auth, path, query) →
        parse_signer_source env (s ++ ':' :: rest) =
          .ok ⟨.filepath path, none, false⟩) ∧
      (∀ s rest auth path loc,
        validSchemeTok s = true →
        lowerTok s = SIGNER_SOURCE_USB →
        validUriChars (s ++ ':' :: rest) = true →
        refOf rest = (auth, path, none) →
        env.locatorFromUri auth path none = .ok loc →
        parse_signer_source env (s ++ ':' :: rest) =
          .ok ⟨.usb loc, none, false⟩) ∧
      (∀ s rest,
        validSchemeTok s = true →
        lowerTok s = SIGNER_SOURCE_STDIN →
        validUriChars (s ++ ':' :: rest) = true →
        parse_signer_source env (s ++ ':' :: rest) =
          .ok ⟨.stdin, none, false⟩) ∧
      (∀ s rest,
        validSchemeTok s = true →
        validUriChars (s ++ ':' :: rest) = true →
        lowerTok s ≠ SIGNER_SOURCE_PROMPT →
        lowerTok s ≠ SIGNER_SOURCE_FILEPATH →
        lowerTok s ≠ SIGNER_SOURCE_USB →
        lowerTok s ≠ SIGNER_SOURCE_STDIN →
        parse_signer_source env (s ++ ':' :: rest) =
          .error .unrecognizedSource) ∧
      (∀ t, validUriChars t = true → schemeSplit t = none →
        validRelRef t = true →
        t ≠ STDOUT_OUTFILE_TOKEN → t ≠ ASK_KEYWORD →
        env.isPubkey t = true →
        parse_signer_source env t = .ok ⟨.pubkey t, none, false⟩) ∧
      (∀ t, validUriChars t = true → schemeSplit t = none →
        validRelRef t = true →
        t ≠ STDOUT_OUTFILE_TOKEN → t ≠ ASK_KEYWORD →
        env.isPubkey t = false → env.pathExists t = true →
        parse_signer_source env t = .ok ⟨.filepath t, none, false⟩) ∧
      (∀ t, validUriChars t = true → schemeSplit t = none →
        validRelRef t = true →
        t ≠ STDOUT_OUTFILE_TOKEN → t ≠ ASK_KEYWORD →
        env.isPubkey t = false → env.pathExists t = false →
        parse_signer_source env t = .error .ioError) := by
  intro env
  refine ⟨?_, ?_, ?_, ?_, ?_, ?_, ?_, ?_⟩
  · intro s rest auth path hs hlow hv href
    simp [parse_signer_source, hv, schemeSplit_append s rest hs, hlow, href,
      derivationFromUriQuery]
  · intro s rest auth path query hs hlow hv href
    simp [parse_signer_source, hv, schemeSplit_append s rest hs, hlow, href,
      SIGNER_SOURCE_FILEPATH, SIGNER_SOURCE_PROMPT, toTok]
  · intro s rest auth path loc hs hlow hv href hloc
    simp [parse_signer_source, hv, schemeSplit_append s rest hs, hlow, href,
      hloc, derivationFromUriQuery, SIGNER_SOURCE_USB, SIGNER_SOURCE_PROMPT,
      SIGNER_SOURCE_FILEPATH, toTok]
  · intro s rest hs hlow hv
    simp [parse_signer_source, hv, schemeSplit_append s rest hs, hlow,
      SIGNER_SOURCE_STDIN, SIGNER_SOURCE_PROMPT, SIGNER_SOURCE_FILEPATH,
      SIGNER_SOURCE_USB, toTok]
  · intro s rest hs hv h1 h2 h3 h4
    simp [parse_signer_source, hv, schemeSplit_append s rest hs, h1, h2, h3, h4]
  · intro t hv hsch hrel hne1 hne2 hpk
    simp [parse_signer_source, hv, hsch, hrel, hne1, hne2, hpk]
  · intro t hv hsch hrel hne1 hne2 hpk hex
    simp [parse_signer_source, hv, hsch, hrel, hne1, hne2, hpk, hex]
  · intro t hv hsch hrel hne1 hne2 hpk hex
    simp [parse_signer_source, hv, hsch, hrel, hne1, hne2, hpk, hex]

/-- C5 witness: the token "Prompt:" (mixed case, empty reference) parses to
the prompt variant via the classification theorem. -/
theorem parse_signer_source_classification_witness :
    parse_signer_source envParseEx (toTok "Prompt" ++ ':' :: toTok "") =
      .ok ⟨.prompt, none, false⟩ :=
  (parse_signer_source_classification envParseEx).1 (toTok "Prompt")
    (toTok "") none (toTok "") (by decide) (by decide) (by decide) (by decide)

/-- The five-character prefix "file:" is transparent to the character
validity check. -/
theorem validUriChars_file (p : Tok) :
    validUriChars (toTok "file" ++ ':' :: p) = validUriChars p := rfl

/-- C10: a `file:` token always parses to the file-path variant carrying the
URI's path component, independently of the filesystem (and of every other
external), while the same path without the scheme is probed for existence
and fails to parse when absent. -/
theorem file_scheme_no_fs_probe :
    ∀ (env env2 : ParseEnv) (p : Tok) (auth : Option Tok) (path : Tok)
      (query : Option Tok),
      validUriChars p = true →
      refOf p = (auth, path, query) →
      parse_signer_source env (toTok "file" ++ ':' :: p) =
        .ok ⟨.filepath path, none, false⟩ ∧
      parse_signer_source env2 (toTok "file" ++ ':' :: p) =
        parse_signer_source env (toTok "file" ++ ':' :: p) ∧
      (schemeSplit p = none → validRelRef p = true →
        p ≠ STDOUT_OUTFILE_TOKEN → p ≠ ASK_KEYWORD →
        env.isPubkey p = false → env.pathExists p = false →
        parse_signer_source env p = .error .ioError) := by
  intro env env2 p auth path query hv href
  have hv2 : validUriChars (toTok "file" ++ ':' :: p) = true := by
    rw [validUriChars_file p, hv]
  have hfile : ∀ (e : ParseEnv),
      parse_signer_source e (toTok "file" ++ ':' :: p) =
        .ok ⟨.filepath path, none, false⟩ := by
    intro e
    simp [parse_signer_source, hv2,
      schemeSplit_append (toTok "file") p (by decide), href,
      show lowerTok (toTok "file") = SIGNER_SOURCE_FILEPATH from rfl,
      show SIGNER_SOURCE_FILEPATH ≠ SIGNER_SOURCE_PROMPT from by decide]
  refine ⟨hfile env, (hfile env2).trans (hfile env).symm, ?_⟩
  intro hsch hrel hne1 hne2 hpk hex
  simp [parse_signer_source, hv, hsch, hrel, hne1, hne2, hpk, hex]

/-- C10 witness: the theorem at the nonexistent path "/nope". -/
theorem file_scheme_no_fs_probe_witness :
    parse_signer_source envParseEx (toTok "file" ++ ':' :: toTok "/nope") =
      .ok ⟨.filepath (toTok "/nope"), none, false⟩ ∧
    parse_signer_source envParseEx (toTok "/nope") = .error .ioError :=
  ⟨(file_scheme_no_fs_probe envParseEx envParseEx (toTok "/nope") none
      (toTok "/nope") none (by decide) (by decide)).1,
   (file_scheme_no_fs_probe envParseEx envParseEx (toTok "/nope") none
      (toTok "/nope") none (by decide) (by decide)).2.2
     (by decide) (by decide) (by decide) (by decide) rfl rfl⟩

/-- C8: resolving a file-path signer source whose file cannot be read or
parsed always fails with the "could not read keypair file" message embedding
the exact requested path and the solana-keygen remediation hint, wrapping
the underlying read error. -/
theorem keypair_from_path_file_error_message :
    ∀ (env : ResolveEnv) (source : Tok) (src : SignerSource) (p : Tok)
      (e : String),
      parse_signer_source env.parseEnv source = .ok src →
      src.kind = .filepath p →
      env.readKeypairFile p = .error e →
      keypair_from_path env source = .error (.ioMessage
        ("could not read keypair file \"" ++ String.mk p ++
         "\". Run \"solana-keygen new\" to create a keypair file: " ++ e)) := by
  intro env source src p e hparse hkind hread
  simp only [keypair_from_path, hparse, hkind, hread]

/-- C8 witness: the token "file:/tmp/missing.key" parses successfully and,
with the file absent, resolution fails with the message naming that exact
path. -/
theorem keypair_from_path_file_error_message_witness :
    keypair_from_path envMissing (toTok "file:/tmp/missing.key") =
      .error (.ioMessage
        ("could not read keypair file \"" ++
         String.mk (toTok "/tmp/missing.key") ++
         "\". Run \"solana-keygen new\" to create a keypair file: " ++
         "No such file or directory (os error 2)")) :=
  keypair_from_path_file_error_message envMissing
    (toTok "file:/tmp/missing.key")
    ⟨.filepath (toTok "/tmp/missing.key"), none, false⟩
    (toTok "/tmp/missing.key") "No such file or directory (os error 2)"
    rfl rfl rfl

end Arborist
